import Mathlib

/-!
Verification of the overhead-flights monitor (Go sources) against its
natural-language specification.  The Go code is shallowly embedded:

* JSON values from the OpenSky `states` response become the inductive
  `JValue`; Go's `float64` arithmetic on parsed numbers is modelled over `ℚ`
  (the constants 3.28084 and 1.94384 are exact decimals);
* Go type assertions (`v.(string)`, `v.(float64)`, ...) and slice indexing,
  which panic when they fail, become `Except GoPanic`;
* the stateful `FlightClient` becomes explicit state passing: one call of
  `FetchFlights` is a pure function of the client state, the current clock
  reading and the (abstracted) network response;
* the concurrent `TileLoader` becomes a small labelled transition system
  whose events are the individual atomic sections of `GetTile`/`fetchTile`
  (each mutex-protected region is one event);
* game-side functions (`setupRoundWithData`, `generateOptions`, `guess`)
  become pure functions of the fields they read, with `rand.Shuffle`
  results modelled by quantifying over the (already shuffled) input list.
-/

namespace FlightMonitor

/-- Decoded JSON value as it appears in a positional state-vector record
(`[]interface` item in Go): `null`, a string, a number (Go `float64`,
modelled as `ℚ`) or a boolean. -/
inductive JValue where
  | null : JValue
  | str : String → JValue
  | num : ℚ → JValue
  | bool : Bool → JValue
deriving DecidableEq, Repr

/-- Run-time failure of the Go record-parsing loop: an out-of-range slice
index (`s[i]` with `i ≥ len(s)`) or a failed single-valued type assertion
(`v.(float64)` on a non-number, `v.(string)` on a non-string, ...). -/
inductive GoPanic where
  | indexOutOfRange : GoPanic
  | typeAssertion : GoPanic
deriving DecidableEq, Repr

/-- The `Flight` struct of part_000 (lines 15-27); the unused inferred
`Destination` field is omitted (never set by `FetchFlights`). -/
structure Flight where
  Icao24 : String
  Callsign : String
  Lon : ℚ
  Lat : ℚ
  VelocityKts : ℤ
  Heading : ℚ
  AltitudeFt : ℤ
  OnGround : Bool
  Origin : String
  Category : String
deriving DecidableEq, Repr

/-- The fixed code→label table `categoryMap` of part_000 (lines 36-43),
as a partial function (Go map lookup returns `ok=false` outside the table). -/
def categoryMap : ℤ → Option String
  | 0 => some "No Info"
  | 1 => some "No Info"
  | 2 => some "Light"
  | 3 => some "Small"
  | 4 => some "Large"
  | 5 => some "High Vortex"
  | 6 => some "Heavy"
  | 7 => some "High Perf"
  | 8 => some "Rotorcraft"
  | 9 => some "Glider"
  | 10 => some "Lighter-than-air"
  | 11 => some "Parachutist"
  | 12 => some "Ultralight"
  | 13 => some "Reserved"
  | 14 => some "UAV"
  | 15 => some "Space"
  | 16 => some "Emergency"
  | 17 => some "Service"
  | 18 => some "Point Obstacle"
  | 19 => some "Cluster"
  | 20 => some "Line Obstacle"
  | _ => none

/-- Go's `int(x)` conversion from `float64`: truncation toward zero
(floor for nonnegative arguments, ceiling for negative ones). -/
def truncQ (q : ℚ) : ℤ := if 0 ≤ q then ⌊q⌋ else ⌈q⌉

/-- Go slice indexing `s[i]`: panics with index-out-of-range when `i` is
not a valid index. -/
def idx (s : List JValue) (i : ℕ) : Except GoPanic JValue :=
  match s.get? i with
  | some v => .ok v
  | none => .error .indexOutOfRange

/-- Go type assertion `v.(float64)` (single-valued form: panics unless the
dynamic type is a number; JSON numbers always decode to `float64`). -/
def asNum : JValue → Except GoPanic ℚ
  | .num q => .ok q
  | _ => .error .typeAssertion

/-- Go type assertion `v.(string)` (single-valued form). -/
def asStr : JValue → Except GoPanic String
  | .str s => .ok s
  | _ => .error .typeAssertion

/-- Go type assertion `v.(bool)` (single-valued form). -/
def asBool : JValue → Except GoPanic Bool
  | .bool b => .ok b
  | _ => .error .typeAssertion

/-- White-space test of Go's `unicode.IsSpace` restricted to the Latin-1
range (the characters a transponder callsign can contain). -/
def isGoSpace (c : Char) : Bool :=
  c = ' ' ∨ c = '\t' ∨ c = '\n' ∨ c = '\x0b' ∨ c = '\x0c' ∨ c = '\r' ∨
    c = '\x85' ∨ c = '\xa0'

/-- Drop the leading white space of a character list. -/
def dropSpaces : List Char → List Char
  | [] => []
  | c :: cs => if isGoSpace c then dropSpaces cs else c :: cs

/-- Go's `strings.TrimSpace`: drop leading and trailing white space. -/
def goTrim (s : String) : String :=
  ⟨(dropSpaces (dropSpaces s.data.reverse).reverse)⟩

/-- Exact value of the Go literal `3.28084` (meters→feet factor). -/
def feetPerMeter : ℚ := 328084 / 100000

/-- Exact value of the Go literal `1.94384` (m/s→knots factor). -/
def knotsPerMs : ℚ := 194384 / 100000

/-- Body of the record loop of `FetchFlights` (part_000 lines 194-249) for
one positional record `s`: `.ok none` when the record is dropped
(`continue` on null longitude/latitude), `.ok (some f)` when a `Flight` is
appended, `.error _` when the Go code would panic.  Field reads are in Go
evaluation order (the `||` short-circuits, so a null `s[5]` drops the
record before `s[6]` is ever indexed). -/
def parseRecord (s : List JValue) : Except GoPanic (Option Flight) := do
  let v5 ← idx s 5
  if v5 = .null then return none
  let v6 ← idx s 6
  if v6 = .null then return none
  let lon ← asNum v5
  let lat ← asNum v6
  let rawCallsign ← asStr (← idx s 1)
  let callsign := if goTrim rawCallsign = "" then "N/A" else goTrim rawCallsign
  let v7 ← idx s 7
  let altM ← if v7 = .null then pure (0 : ℚ) else asNum v7
  let altFt := truncQ (altM * feetPerMeter)
  let v9 ← idx s 9
  let velMs ← if v9 = .null then pure (0 : ℚ) else asNum v9
  let velKts := truncQ (velMs * knotsPerMs)
  let v10 ← idx s 10
  let heading ← if v10 = .null then pure (0 : ℚ) else asNum v10
  let catStr ←
    match s.get? 17 with
    | some v17 =>
        if v17 = .null then pure "Unknown"
        else do
          let catCode := truncQ (← asNum v17)
          pure ((categoryMap catCode).getD "Unknown")
    | none => pure "Unknown"
  let icao ← asStr (← idx s 0)
  let onGround ← asBool (← idx s 8)
  let originCountry ← asStr (← idx s 2)
  return some
    { Icao24 := icao
      Callsign := callsign
      Lon := lon
      Lat := lat
      VelocityKts := velKts
      Heading := heading
      AltitudeFt := altFt
      OnGround := onGround
      Origin := originCountry
      Category := catStr }

/-- Encoding of an optional numeric entry of a positional record: present
as a JSON number, or the JSON `null`. -/
def optNum : Option ℚ → JValue
  | some q => .num q
  | none => .null

/-- A well-formed 18-element positional state-vector record (the OpenSky
layout: 0 icao24, 1 callsign, 2 origin country, 5 longitude, 6 latitude,
7 barometric altitude, 8 on-ground, 9 velocity, 10 true track, 17
category), with non-null longitude/latitude and optional altitude,
velocity, heading and category entries. -/
def mkStateRecord (icao cs originC : String) (lon lat : ℚ) (alt : Option ℚ)
    (onG : Bool) (vel hdg cat : Option ℚ) : List JValue :=
  [.str icao, .str cs, .str originC, .null, .null, .num lon, .num lat,
   optNum alt, .bool onG, optNum vel, optNum hdg,
   .null, .null, .null, .null, .null, .null, optNum cat]

/-- Callsign normalization of the record loop (part_000 lines 202-205):
trimmed, with the empty result replaced by "N/A". -/
def goCallsign (cs : String) : String :=
  if goTrim cs = "" then "N/A" else goTrim cs

/-- Category label of the record loop (part_000 lines 227-234): "Unknown"
when the entry is absent, otherwise the table label of the truncated code,
"Unknown" for codes outside the table. -/
def catLabel : Option ℚ → String
  | none => "Unknown"
  | some q => (categoryMap (truncQ q)).getD "Unknown"

/-- The whole record loop: parses each record of the `states` array in
order, keeping the non-dropped flights; a panic anywhere aborts the whole
call (as a Go panic would). -/
def parseStates : List (List JValue) → Except GoPanic (List Flight)
  | [] => .ok []
  | s :: rest => do
      let f? ← parseRecord s
      let tail ← parseStates rest
      match f? with
      | some f => .ok (f :: tail)
      | none => .ok tail

/-- Cache-relevant state of a `FlightClient` (part_000 lines 45-53): the
cached snapshot and the time of the last successful fetch, in seconds
(authentication fields do not affect the cached data and are omitted). -/
structure ClientState where
  cache : List Flight
  lastFetch : ℕ
deriving DecidableEq, Repr

/-- The Go constant `cacheDuration = 10 * time.Second`, in seconds. -/
def cacheDuration : ℕ := 10

/-- Abstraction of one network exchange of `FetchFlights`: the request
errored, or came back with an HTTP status and (for status 200) a body that
either failed to decode (`none`) or decoded to a `states` array. -/
inductive FetchResp where
  | netError : FetchResp
  | status : ℕ → Option (List (List JValue)) → FetchResp

/-- The error taxonomy of `FetchFlights`: transport error, HTTP 429,
other non-200 status, and undecodable JSON body. -/
inductive FetchErr where
  | network : FetchErr
  | rateLimited : FetchErr
  | badStatus : ℕ → FetchErr
  | decode : FetchErr
deriving DecidableEq, Repr

/-- Result of one `FetchFlights` call: the returned slice (Go `nil` is the
empty list), the returned error, the client state after the call, and
whether a network request was issued. -/
structure FetchOut where
  flights : List Flight
  err : Option FetchErr
  state : ClientState
  network : Bool
deriving DecidableEq, Repr

/-- `FetchFlights` (part_000 lines 133-256) as a pure function of the
client state, the current clock reading (seconds) and the network
response.  Freshness check (line 138): serve the cache with no network
access only when the last fetch is younger than `cacheDuration` AND the
cache is non-empty.  Every failure path returns the Go `nil` slice and
leaves the state untouched; only the success path installs the new
snapshot and timestamp (lines 252-253).  A parse panic aborts the call. -/
def FetchFlights (st : ClientState) (now : ℕ) (resp : FetchResp) :
    Except GoPanic FetchOut :=
  if now - st.lastFetch < cacheDuration ∧ st.cache ≠ [] then
    .ok ⟨st.cache, none, st, false⟩
  else
    match resp with
    | .netError => .ok ⟨[], some .network, st, true⟩
    | .status code body =>
        if code = 429 then .ok ⟨[], some .rateLimited, st, true⟩
        else if code ≠ 200 then .ok ⟨[], some (.badStatus code), st, true⟩
        else
          match body with
          | none => .ok ⟨[], some .decode, st, true⟩
          | some states =>
              match parseStates states with
              | .error p => .error p
              | .ok flights => .ok ⟨flights, none, ⟨flights, now⟩, true⟩

/-- The `ResolvedDetails` struct of go_raylib/scraper.go (lines 13-18). -/
structure ResolvedDetails where
  Destination : String
  RealDestination : String
  Model : String
  Origin : String
deriving DecidableEq, Repr

/-- Go sub-map read `m["k"].(string)` in its two-valued form: the string
value when the key is present with a string value, otherwise `none`
(covers a missing key, a non-string value, and the whole sub-map being
absent, i.e. the Go nil map). -/
def lookupStr (m : List (String × JValue)) (k : String) : Option String :=
  match m.lookup k with
  | some (.str v) => some v
  | _ => none

/-- Field extraction of `FetchFlightDetails` (go_raylib/scraper.go lines
99-128) from the chosen activity-log entry, whose `destination`,
`aircraft` and `origin` sub-maps are given as association lists (the empty
list models an absent sub-map).  Destination: `friendlyLocation`, else
`iata`, else `""`.  Model: `friendlyType`, else `type`, else `""`.
Origin: `friendlyLocation`, else `""` (the code has no `iata` fallback for
the origin).  `Destination` and `RealDestination` both receive the same
extracted destination string. -/
def extractDetails (destData aircraftData originData : List (String × JValue)) :
    ResolvedDetails :=
  let destName :=
    match lookupStr destData "friendlyLocation" with
    | some v => v
    | none =>
        match lookupStr destData "iata" with
        | some v => v
        | none => ""
  let model :=
    match lookupStr aircraftData "friendlyType" with
    | some v => v
    | none =>
        match lookupStr aircraftData "type" with
        | some v => v
        | none => ""
  let originName :=
    match lookupStr originData "friendlyLocation" with
    | some v => v
    | none => ""
  ⟨destName, destName, model, originName⟩

/-- Character-list helper for `goContains`: `leadsWith sub s` is true when
`s` starts with `sub`. -/
def leadsWith : List Char → List Char → Bool
  | [], _ => true
  | _ :: _, [] => false
  | a :: as, b :: bs => a == b && leadsWith as bs

/-- Character-list helper for `goContains`: `occursIn sub s` is true when
`sub` occurs contiguously somewhere in `s`. -/
def occursIn (sub : List Char) : List Char → Bool
  | [] => leadsWith sub []
  | s :: rest => leadsWith sub (s :: rest) || occursIn sub rest

/-- Go's `strings.Contains s sub`: true when `sub` is empty or occurs
contiguously in `s`. -/
def goContains (s sub : String) : Bool :=
  occursIn sub.data s.data

/-- Outcome of `setupRoundWithData`: the round is discarded and a new
random target picked (`pickNewTarget`), or playing state is entered with
the shown question text and the hidden correct option. -/
inductive RoundOutcome where
  | retry : RoundOutcome
  | play : String → String → RoundOutcome
deriving DecidableEq, Repr

/-- `setupRoundWithData` of go_version/main.go (lines 919-950): the round
is discarded when the resolved destination OR the resolved origin is empty
or literally "Unknown"; otherwise the round is inbound when the
destination contains "Helsinki" or "Vantaa" (asking for the origin), else
it asks for the destination. -/
def setupRoundWithData_ebiten (d : ResolvedDetails) (callsign : String) :
    RoundOutcome :=
  if d.RealDestination = "" ∨ d.RealDestination = "Unknown" ∨
      d.Origin = "" ∨ d.Origin = "Unknown" then
    .retry
  else if goContains d.RealDestination "Helsinki" ∨
      goContains d.RealDestination "Vantaa" then
    .play ("Where is " ++ callsign ++ " from?") d.Origin
  else
    .play ("Where is " ++ callsign ++ " going?") d.RealDestination

/-- `setupRoundWithData` of go_raylib/main.go (lines 929-951): only the
resolved destination is validated (empty or "Unknown" discards the round);
the origin is NOT checked, and an inbound round (destination containing
"Helsinki") makes the unvalidated origin the correct option. -/
def setupRoundWithData_raylib (d : ResolvedDetails) (callsign : String) :
    RoundOutcome :=
  if d.RealDestination = "" ∨ d.RealDestination = "Unknown" then
    .retry
  else if goContains d.RealDestination "Helsinki" then
    .play ("Where is " ++ callsign ++ " from?") d.Origin
  else
    .play ("Where is " ++ callsign ++ " going?") d.RealDestination

/-- Distractor loop of `generateOptions` (go_version lines 969-977,
go_raylib lines 959-967): walk the shuffled airports list, appending every
entry different from the correct option and from "Unknown" until the
option list reaches 4 entries.  `opts` is the accumulator (starts as the
one-element list holding the correct option). -/
def pickDistractors (correct : String) (opts : List String) :
    List String → List String
  | [] => opts
  | c :: rest =>
      if 4 ≤ opts.length then opts
      else if c ≠ correct ∧ c ≠ "Unknown" then
        pickDistractors correct (opts ++ [c]) rest
      else pickDistractors correct opts rest

/-- Fallback loop of `generateOptions` (go_version lines 980-997,
go_raylib lines 968-985): pad the option list from the fixed fallback city
list, skipping entries already present, until it reaches 4 entries. -/
def padFallback (opts : List String) : List String → List String
  | [] => opts
  | c :: rest =>
      if 4 ≤ opts.length then opts
      else if c ∈ opts then padFallback opts rest
      else padFallback (opts ++ [c]) rest

/-- The fixed fallback city list of go_version/main.go (line 981). -/
def fallbackCities_ebiten : List String :=
  ["London", "Paris", "Berlin", "Helsinki", "Tokyo", "New York"]

/-- The fixed fallback city list of go_raylib/main.go (line 969). -/
def fallbackCities_raylib : List String :=
  ["London", "Paris", "Berlin", "Helsinki"]

/-- `generateOptions` up to the final display shuffle, as a function of
the correct option, the already-shuffled airports list and the fallback
list.  `rand.Shuffle` only permutes, so quantifying over the input list
covers every shuffle outcome, and the set-level properties proved below
(length, duplicates, membership, counts) are invariant under the final
shuffle as well. -/
def generateOptionsCore (correct : String) (dist fallback : List String) :
    List String :=
  let opts := pickDistractors correct [correct] dist
  if opts.length < 4 then padFallback opts fallback else opts

/-- `generateOptions` of go_version/main.go (lines 959-1003). -/
def generateOptions_ebiten (correct : String) (dist : List String) :
    List String :=
  generateOptionsCore correct dist fallbackCities_ebiten

/-- `generateOptions` of go_raylib/main.go (lines 953-988). -/
def generateOptions_raylib (correct : String) (dist : List String) :
    List String :=
  generateOptionsCore correct dist fallbackCities_raylib

/-- Guess-relevant game fields read and written by `guess` (both variants
are textually identical here: go_version lines 1005-1021, go_raylib lines
990-1004). -/
structure GuessState where
  showResult : Bool
  resultCorrect : Bool
  correctOption : String
  score : ℤ
  wrongGuess : String
deriving DecidableEq, Repr

/-- The time bonus of a correct guess: `int(math.Max(0, (20.0-elapsed)/20.0*100.0))`;
the truncation acts on a nonnegative value, so it is a floor. -/
def guessBonus (elapsed : ℚ) : ℤ :=
  truncQ (max 0 ((20 - elapsed) / 20 * 100))

/-- `guess` as a pure function of the guess-relevant state, the chosen
city and the elapsed round time in seconds: ignored while a result is
showing; a correct guess adds `100 + guessBonus`, an incorrect guess adds
nothing and records the wrong choice; both set `showResult`. -/
def guess (st : GuessState) (city : String) (elapsed : ℚ) : GuessState :=
  if st.showResult then st
  else
    let correct := city = st.correctOption
    if correct then
      { st with
          resultCorrect := true
          score := st.score + 100 + guessBonus elapsed
          showResult := true }
    else
      { st with
          resultCorrect := false
          wrongGuess := city
          showResult := true }

/-- The `TileKey` struct of the tile loader (part_001): (zoom, x, y). -/
structure TileKey where
  Z : ℤ
  X : ℤ
  Y : ℤ
deriving DecidableEq, Repr

/-- One running `fetchTile` goroutine: its key, and whether it has already
passed its cache re-check and issued the network GET (`fetching = true`)
without yet having stored a decoded image. -/
structure TLThread where
  key : TileKey
  fetching : Bool
deriving DecidableEq, Repr

/-- State of the tile loader plus its running fetch goroutines: the set of
stored cache keys (decoded images abstracted away), the running threads,
and the log of network GETs issued so far (one entry per HTTP request). -/
structure TLState where
  cache : List TileKey
  threads : List TLThread
  netLog : List TileKey
deriving DecidableEq, Repr

/-- The tile loader starts with an empty cache, no goroutines and no
network traffic (`NewTileLoader`, part_001 lines 85-90). -/
def tlInit : TLState := ⟨[], [], []⟩

/-- Atomic events of the tile loader, one per mutex-protected section of
the code.  `getTile k`: a renderer call of `GetTile` runs its locked cache
lookup and, on a miss, spawns a `fetchTile` goroutine (part_001 lines
92-105).  `check i`: goroutine `i` runs the locked cache re-check at the
top of `fetchTile` (lines 109-114) and, on a miss, proceeds to issue the
network GET (line 119).  `store i`: goroutine `i`, having fetched and
decoded successfully, runs the locked store (lines 134-136) and exits.
`fail i`: goroutine `i`'s fetch or decode failed; it exits without storing
(lines 120-130). -/
inductive TLEvent where
  | getTile : TileKey → TLEvent
  | check : ℕ → TLEvent
  | store : ℕ → TLEvent
  | fail : ℕ → TLEvent

/-- One step of the tile-loader transition system.  Events whose thread
index does not denote a thread in the required phase are no-ops. -/
def tlStep (s : TLState) : TLEvent → TLState
  | .getTile k =>
      if k ∈ s.cache then s
      else { s with threads := s.threads ++ [⟨k, false⟩] }
  | .check i =>
      match s.threads.get? i with
      | some ⟨k, false⟩ =>
          if k ∈ s.cache then { s with threads := s.threads.eraseIdx i }
          else
            { s with
                threads := s.threads.set i ⟨k, true⟩
                netLog := s.netLog ++ [k] }
      | _ => s
  | .store i =>
      match s.threads.get? i with
      | some ⟨k, true⟩ =>
          { s with
              cache := s.cache ++ [k]
              threads := s.threads.eraseIdx i }
      | _ => s
  | .fail i =>
      match s.threads.get? i with
      | some ⟨_, true⟩ => { s with threads := s.threads.eraseIdx i }
      | _ => s

/-- Run of the tile loader over a list of events. -/
def tlRun (evs : List TLEvent) : TLState := evs.foldl tlStep tlInit

/-- Number of fetches for key `k` currently in flight (network GET issued,
image not yet stored). -/
def tlInFlight (s : TLState) (k : TileKey) : ℕ :=
  (s.threads.filter (fun t => t.key = k ∧ t.fetching)).length

/-- The Go constant `tileSize = 256` (part_002 line 8). -/
def tileSize : ℝ := 256

/-- `LatLonToPixels` (part_002 lines 12-20) over the reals: standard
Web-Mercator pixel coordinates at a zoom level. -/
noncomputable def LatLonToPixels (lat lon : ℝ) (zoom : ℕ) : ℝ × ℝ :=
  let scale : ℝ := 2 ^ zoom
  let x := (lon + 180) / 360 * scale * tileSize
  let latRad := lat * Real.pi / 180
  let y := (1 - Real.log (Real.tan latRad + 1 / Real.cos latRad) / Real.pi)
      / 2 * scale * tileSize
  (x, y)

/-- `PixelsToLatLon` (part_002 lines 23-31) over the reals: inverse
Web-Mercator transform. -/
noncomputable def PixelsToLatLon (x y : ℝ) (zoom : ℕ) : ℝ × ℝ :=
  let scale : ℝ := 2 ^ zoom
  let lon := x / (scale * tileSize) * 360 - 180
  let n := Real.pi - 2 * Real.pi * y / (scale * tileSize)
  let lat := 180 / Real.pi * Real.arctan ((Real.exp n - Real.exp (-n)) / 2)
  (lat, lon)

/-! Concrete sample data used by the closed theorems below. -/

/-- A sample cached flight. -/
def sampleFlight : Flight :=
  ⟨"abc123", "FIN1", 24, 60, 0, 0, 0, false, "Finland", "Unknown"⟩

/-!  Theorems. -/

/-- C1 (counterexample): with a non-empty cached snapshot and a stale
timestamp, a failing fetch (network error) returns the empty (Go `nil`)
slice alongside the error, NOT the previously cached snapshot: the claim
that the cached snapshot is returned alongside the error is false.  (The
cache and timestamp fields are indeed left unmodified.) -/
theorem fetchFlights_failure_returns_nil_not_cache :
    FetchFlights ⟨[sampleFlight], 0⟩ 50 .netError =
      .ok ⟨[], some .network, ⟨[sampleFlight], 0⟩, true⟩ ∧
    ([] : List Flight) ≠ [sampleFlight] := by
  exact ⟨rfl, by simp⟩

/-- C1 (amended): every failing `FetchFlights` call (network error, HTTP
429, other non-200 status, undecodable JSON body) returns the empty (Go
`nil`) slice alongside the error and leaves the cached snapshot and fetch
timestamp unmodified — so later calls within the freshness window still
serve the previous snapshot. -/
theorem fetchFlights_failure_preserves_state (st : ClientState) (now : ℕ)
    (resp : FetchResp) (o : FetchOut)
    (h : FetchFlights st now resp = .ok o) (herr : o.err.isSome) :
    o.flights = [] ∧ o.state = st ∧ o.network = true := by
  unfold FetchFlights at h
  repeat' split at h
  all_goals first
    | exact Except.noConfusion h
    | (injection h with h'; subst h'; simp_all)

/-- Witness for the amended C1 theorem at a concrete failing call. -/
theorem fetchFlights_failure_preserves_state_witness :
    FetchFlights ⟨[sampleFlight], 0⟩ 50 .netError =
        .ok ⟨[], some .network, ⟨[sampleFlight], 0⟩, true⟩ ∧
    (⟨[], some .network, ⟨[sampleFlight], 0⟩, true⟩ : FetchOut).err.isSome ∧
    ([] : List Flight) = [] ∧
    (⟨[sampleFlight], 0⟩ : ClientState) = ⟨[sampleFlight], 0⟩ ∧ true = true :=
  ⟨rfl, rfl,
    (fetchFlights_failure_preserves_state ⟨[sampleFlight], 0⟩ 50 .netError
        ⟨[], some .network, ⟨[sampleFlight], 0⟩, true⟩ rfl rfl).1,
    (fetchFlights_failure_preserves_state ⟨[sampleFlight], 0⟩ 50 .netError
        ⟨[], some .network, ⟨[sampleFlight], 0⟩, true⟩ rfl rfl).2.1,
    rfl⟩

/-- C4 (counterexample): a successful fetch can install an EMPTY snapshot
(no aircraft in the bounding box); a second call one second later — well
inside the 10-second freshness window of that success — issues a network
request anyway, because the freshness check (part_000 line 138) also
requires a non-empty cache.  The claim "no network request is made within
the freshness window of a prior success" is therefore false. -/
theorem fetchFlights_fresh_empty_cache_refetches :
    FetchFlights ⟨[sampleFlight], 0⟩ 100 (.status 200 (some [])) =
      .ok ⟨[], none, ⟨[], 100⟩, true⟩ ∧
    FetchFlights ⟨[], 100⟩ 101 .netError =
      .ok ⟨[], some .network, ⟨[], 100⟩, true⟩ ∧
    101 - 100 < cacheDuration := by
  exact ⟨rfl, rfl, by decide⟩

/-- C4 (amended): while the prior snapshot is younger than the 10-second
freshness window AND non-empty, no network request is made and the
returned snapshot is the cached one, with the client state untouched. -/
theorem fetchFlights_fresh_nonempty_cache_no_network (st : ClientState)
    (now : ℕ) (resp : FetchResp)
    (h1 : now - st.lastFetch < cacheDuration) (h2 : st.cache ≠ []) :
    FetchFlights st now resp = .ok ⟨st.cache, none, st, false⟩ := by
  unfold FetchFlights
  rw [if_pos ⟨h1, h2⟩]

/-- Witness for the amended C4 theorem at a concrete fresh call. -/
theorem fetchFlights_fresh_nonempty_cache_no_network_witness :
    5 - 0 < cacheDuration ∧ ([sampleFlight] : List Flight) ≠ [] ∧
    FetchFlights ⟨[sampleFlight], 0⟩ 5 .netError =
      .ok ⟨[sampleFlight], none, ⟨[sampleFlight], 0⟩, false⟩ :=
  ⟨by decide, by simp,
    fetchFlights_fresh_nonempty_cache_no_network ⟨[sampleFlight], 0⟩ 5
      .netError (by decide) (by simp)⟩

/-- C8 (counterexample): a well-formed record with barometric altitude
−1 m parses to `AltitudeFt = −3` (Go's `int(...)` truncates toward zero),
whereas flooring −1 · 3.28084 = −3.28084 gives −4: the conversions are
NOT floored on negative inputs. -/
theorem parseRecord_neg_altitude_truncates_not_floors :
    parseRecord (mkStateRecord "abc123" "FIN1" "Finland" 24 60 (some (-1))
        false none none none) =
      .ok (some ⟨"abc123", "FIN1", 24, 60, truncQ (0 * knotsPerMs), 0,
        truncQ ((-1) * feetPerMeter), false, "Finland", "Unknown"⟩) ∧
    truncQ ((-1) * feetPerMeter) = -3 ∧
    ⌊((-1 : ℚ) * feetPerMeter)⌋ = -4 ∧
    ((-3 : ℤ) ≠ -4) := by
  refine ⟨rfl, ?_, by norm_num [feetPerMeter], by decide⟩
  rw [truncQ, if_neg (by norm_num [feetPerMeter])]
  rw [show ((-1) * feetPerMeter : ℚ) = -82021/25000 by norm_num [feetPerMeter]]
  rw [Int.ceil_eq_iff]
  norm_num

/-- C8 (amended): record parsing of the snapshot fetch.  A record whose
longitude or latitude entry is null is dropped; a well-formed 18-element
record parses with missing altitude/velocity/heading defaulting to zero
and a missing category labelled "Unknown" via the fixed table; altitude is
multiplied by 3.28084 and velocity by 1.94384, both TRUNCATED TOWARD ZERO
(which agrees with flooring for the nonnegative inputs of the claim:
0 m → 0 ft, 1000 m → 3280 ft, 10 m/s → 19 kt). -/
theorem parseRecord_normalization :
    (∀ v0 v1 v2 v3 v4 rest,
      parseRecord (v0 :: v1 :: v2 :: v3 :: v4 :: .null :: rest) = .ok none) ∧
    (∀ v0 v1 v2 v3 v4 v5 rest,
      parseRecord (v0 :: v1 :: v2 :: v3 :: v4 :: v5 :: .null :: rest) =
        .ok none) ∧
    (∀ icao cs oc lon lat alt onG vel hdg cat,
      parseRecord (mkStateRecord icao cs oc lon lat alt onG vel hdg cat) =
        .ok (some ⟨icao, goCallsign cs, lon, lat,
          truncQ (vel.getD 0 * knotsPerMs), hdg.getD 0,
          truncQ (alt.getD 0 * feetPerMeter), onG, oc, catLabel cat⟩)) ∧
    (∀ q : ℚ, 0 ≤ q → truncQ q = ⌊q⌋) ∧
    truncQ ((0 : ℚ) * feetPerMeter) = 0 ∧
    truncQ ((1000 : ℚ) * feetPerMeter) = 3280 ∧
    truncQ ((10 : ℚ) * knotsPerMs) = 19 := by
  refine ⟨?_, ?_, ?_, ?_, ?_, ?_, ?_⟩
  · intro v0 v1 v2 v3 v4 rest
    rfl
  · intro v0 v1 v2 v3 v4 v5 rest
    have h : parseRecord (v0 :: v1 :: v2 :: v3 :: v4 :: v5 :: .null :: rest) =
        if v5 = .null then pure none else pure none := rfl
    rw [h]
    split <;> rfl
  · intro icao cs oc lon lat alt onG vel hdg cat
    cases alt <;> cases vel <;> cases hdg <;> cases cat <;> rfl
  · intro q h
    rw [truncQ, if_pos h]
  · rw [truncQ, if_pos (by norm_num [feetPerMeter])]
    norm_num [feetPerMeter]
  · rw [truncQ, if_pos (by norm_num [feetPerMeter])]
    norm_num [feetPerMeter]
  · rw [truncQ, if_pos (by norm_num [knotsPerMs])]
    norm_num [knotsPerMs]

/-- Witness for the amended C8 theorem at concrete records. -/
theorem parseRecord_normalization_witness :
    parseRecord (.str "x" :: .null :: .str "y" :: .null :: .null :: .null ::
        [.num 60]) = .ok none ∧
    parseRecord (mkStateRecord "abc123" "FIN1" "Finland" 24 60 (some 1000)
        false (some 10) (some 90) (some 4)) =
      .ok (some ⟨"abc123", goCallsign "FIN1", 24, 60,
        truncQ ((some (10:ℚ)).getD 0 * knotsPerMs), (some (90:ℚ)).getD 0,
        truncQ ((some (1000:ℚ)).getD 0 * feetPerMeter), false, "Finland",
        catLabel (some 4)⟩) ∧
    truncQ (5 : ℚ) = ⌊(5 : ℚ)⌋ :=
  ⟨parseRecord_normalization.1 (.str "x") .null (.str "y") .null .null
      [.num 60],
    parseRecord_normalization.2.2.1 "abc123" "FIN1" "Finland" 24 60
      (some 1000) false (some 10) (some 90) (some 4),
    parseRecord_normalization.2.2.2.1 5 (by norm_num)⟩

/-- C10 (confirmed): record parsing panics, instead of dropping the record
or returning an error, on well-formed responses whose record has non-null
longitude and latitude but (a) a null callsign entry, (b) a non-string
origin-country entry, (c) a null on-ground entry, or (d) fewer than 11
positional elements — and the panic propagates out of the whole
`FetchFlights` call. -/
theorem parseRecord_panics_on_malformed_records :
    parseRecord [.str "abc", .null, .str "FI", .null, .null, .num 24,
        .num 60, .null, .bool false, .null, .null] =
      .error .typeAssertion ∧
    parseRecord [.str "abc", .str "FIN1", .num 7, .null, .null, .num 24,
        .num 60, .null, .bool false, .null, .null] =
      .error .typeAssertion ∧
    parseRecord [.str "abc", .str "FIN1", .str "FI", .null, .null, .num 24,
        .num 60, .null, .null, .null, .null] =
      .error .typeAssertion ∧
    parseRecord [.str "abc", .str "FIN1", .str "FI", .null, .null, .num 24,
        .num 60, .null, .bool false, .null] =
      .error .indexOutOfRange ∧
    FetchFlights ⟨[], 0⟩ 100 (.status 200 (some [[.str "abc", .null,
        .str "FI", .null, .null, .num 24, .num 60, .null, .bool false,
        .null, .null]])) =
      .error .typeAssertion :=
  ⟨rfl, rfl, rfl, rfl, rfl⟩

/-- C3 (counterexample): the raylib variant of `setupRoundWithData` enters
playing state for a resolver result whose origin is literally "Unknown"
(destination "Paris" passes its only check): the round is NOT discarded,
refuting the claimed symmetric origin validation. -/
theorem setupRound_raylib_accepts_unknown_origin :
    setupRoundWithData_raylib ⟨"Paris", "Paris", "A320", "Unknown"⟩ "ABC123" =
      .play "Where is ABC123 going?" "Paris" ∧
    RoundOutcome.play "Where is ABC123 going?" "Paris" ≠ .retry := by
  exact ⟨rfl, by simp⟩

/-- C3 (amended): the ebiten variant discards and restarts the round
exactly when the resolved destination or the resolved origin is empty or
literally "Unknown"; the raylib variant discards exactly when the resolved
DESTINATION is empty or "Unknown" — its origin is never validated. -/
theorem setupRound_validation :
    (∀ (d : ResolvedDetails) (cs : String),
      setupRoundWithData_ebiten d cs = .retry ↔
        d.RealDestination = "" ∨ d.RealDestination = "Unknown" ∨
          d.Origin = "" ∨ d.Origin = "Unknown") ∧
    (∀ (d : ResolvedDetails) (cs : String),
      setupRoundWithData_raylib d cs = .retry ↔
        d.RealDestination = "" ∨ d.RealDestination = "Unknown") := by
  constructor
  · intro d cs
    unfold setupRoundWithData_ebiten
    split_ifs with h1 h2 <;> simp [h1]
  · intro d cs
    unfold setupRoundWithData_raylib
    split_ifs with h1 h2 <;> simp [h1]

/-- C6 (counterexample): a correct guess 0.08 s into the round adds
100 + 99 = 199 points (the bonus 99.6 is truncated to 99), while the
claimed formula 100 + max(0, round(99.6)) yields 200: the bonus is not
rounded. -/
theorem guess_bonus_truncates_not_rounds :
    guess ⟨false, false, "Paris", 0, ""⟩ "Paris" (2 / 25) =
      ⟨true, true, "Paris", 199, ""⟩ ∧
    (100 : ℤ) + max 0 (round ((20 - 2 / 25) / 20 * 100 : ℚ)) = 200 ∧
    (199 : ℤ) ≠ 200 := by
  refine ⟨?_, ?_, by decide⟩
  · simp only [guess, guessBonus, truncQ]
    norm_num [GuessState.mk.injEq]
  · norm_num [round_eq]

/-- C6 (amended): a guess while a result is showing changes nothing; a
correct guess adds `100 + guessBonus`, where the bonus is
`max(0, floor((20 − elapsed)/20 × 100))` — truncation, not rounding — so
it is 100 at elapsed 0 (score +200), 0 at or after 20 s (score +100), and
never negative; an incorrect guess leaves the score unchanged and records
the wrong choice. -/
theorem guess_scoring :
    (∀ (st : GuessState) (city : String) (e : ℚ),
      st.showResult = true → guess st city e = st) ∧
    (∀ (st : GuessState) (city : String) (e : ℚ),
      st.showResult = false → city = st.correctOption →
        guess st city e =
          { st with
              resultCorrect := true
              score := st.score + 100 + guessBonus e
              showResult := true }) ∧
    (∀ e : ℚ, guessBonus e = max 0 ⌊(20 - e) / 20 * 100⌋) ∧
    (∀ e : ℚ, 0 ≤ guessBonus e) ∧
    guessBonus 0 = 100 ∧
    (∀ e : ℚ, 20 ≤ e → guessBonus e = 0) ∧
    (∀ (st : GuessState) (city : String) (e : ℚ),
      st.showResult = false → city ≠ st.correctOption →
        guess st city e =
          { st with
              resultCorrect := false
              wrongGuess := city
              showResult := true }) := by
  have hbonus : ∀ e : ℚ, guessBonus e = max 0 ⌊(20 - e) / 20 * 100⌋ := by
    intro e
    rw [guessBonus, truncQ, if_pos (le_max_left _ _)]
    rcases le_total ((20 - e) / 20 * 100) 0 with h | h
    · rw [max_eq_left h, max_eq_left (Int.floor_nonpos h)]
      exact Int.floor_zero
    · rw [max_eq_right h, max_eq_right (Int.floor_nonneg.2 h)]
  refine ⟨?_, ?_, hbonus, ?_, ?_, ?_, ?_⟩
  · intro st city e h
    simp [guess, h]
  · intro st city e h1 h2
    simp [guess, h1, h2]
  · intro e
    rw [hbonus]
    exact le_max_left _ _
  · rw [guessBonus]
    rw [show ((20 - 0) / 20 * 100 : ℚ) = 100 by norm_num]
    rw [max_eq_right (by norm_num : (0 : ℚ) ≤ 100)]
    rw [truncQ, if_pos (by norm_num)]
    norm_num
  · intro e he
    rw [hbonus, max_eq_left]
    apply Int.floor_nonpos
    rw [show ((20 - e) / 20 * 100 : ℚ) = (20 - e) * 5 by ring]
    nlinarith
  · intro st city e h1 h2
    simp [guess, h1, h2]

/-- Witness for the amended C6 theorem at concrete guesses. -/
theorem guess_scoring_witness :
    (⟨true, false, "Paris", 7, ""⟩ : GuessState).showResult = true ∧
    guess ⟨true, false, "Paris", 7, ""⟩ "Rome" 3 = ⟨true, false, "Paris", 7, ""⟩ ∧
    guess ⟨false, false, "Paris", 0, ""⟩ "Paris" 0 =
      ⟨true, true, "Paris", 0 + 100 + guessBonus 0, ""⟩ ∧
    (20 : ℚ) ≤ 25 ∧ guessBonus 25 = 0 ∧
    guess ⟨false, false, "Paris", 0, ""⟩ "Rome" 3 =
      ⟨true, false, "Paris", 0, "Rome"⟩ :=
  ⟨rfl,
    guess_scoring.1 ⟨true, false, "Paris", 7, ""⟩ "Rome" 3 rfl,
    guess_scoring.2.1 ⟨false, false, "Paris", 0, ""⟩ "Paris" 0 rfl rfl,
    by norm_num,
    guess_scoring.2.2.2.2.2.1 25 (by norm_num),
    guess_scoring.2.2.2.2.2.2 ⟨false, false, "Paris", 0, ""⟩ "Rome" 3 rfl
      (by simp)⟩

/-- C7 (counterexample): an activity-log entry whose origin sub-map has an
IATA code "CDG" but no friendly location resolves to origin "": the code
has no IATA fallback for the origin, refuting the claimed symmetric
fallback. -/
theorem extractDetails_origin_no_iata_fallback :
    extractDetails [] [] [("iata", .str "CDG")] = ⟨"", "", "", ""⟩ ∧
    (extractDetails [] [] [("iata", .str "CDG")]).Origin ≠ "CDG" := by
  exact ⟨rfl, by decide⟩

/-- C7 (amended): the resolver reads the destination preferring
`friendlyLocation` and falling back to `iata`, the model preferring
`friendlyType` and falling back to `type`, but the origin from
`friendlyLocation` ONLY (no IATA fallback); a field absent under all its
read keys yields the empty string, and `Destination` always equals
`RealDestination`. -/
theorem extractDetails_field_preference (d a o : List (String × JValue)) :
    (∀ v, lookupStr d "friendlyLocation" = some v →
      (extractDetails d a o).RealDestination = v) ∧
    (lookupStr d "friendlyLocation" = none → ∀ v,
      lookupStr d "iata" = some v → (extractDetails d a o).RealDestination = v) ∧
    (lookupStr d "friendlyLocation" = none → lookupStr d "iata" = none →
      (extractDetails d a o).RealDestination = "") ∧
    (∀ v, lookupStr a "friendlyType" = some v →
      (extractDetails d a o).Model = v) ∧
    (lookupStr a "friendlyType" = none → ∀ v,
      lookupStr a "type" = some v → (extractDetails d a o).Model = v) ∧
    (lookupStr a "friendlyType" = none → lookupStr a "type" = none →
      (extractDetails d a o).Model = "") ∧
    (∀ v, lookupStr o "friendlyLocation" = some v →
      (extractDetails d a o).Origin = v) ∧
    (lookupStr o "friendlyLocation" = none → (extractDetails d a o).Origin = "") ∧
    (extractDetails d a o).Destination = (extractDetails d a o).RealDestination := by
  refine ⟨?_, ?_, ?_, ?_, ?_, ?_, ?_, ?_, ?_⟩
  · intro v hv
    simp [extractDetails, hv]
  · intro h1 v hv
    simp [extractDetails, h1, hv]
  · intro h1 h2
    simp [extractDetails, h1, h2]
  · intro v hv
    simp [extractDetails, hv]
  · intro h1 v hv
    simp [extractDetails, h1, hv]
  · intro h1 h2
    simp [extractDetails, h1, h2]
  · intro v hv
    simp [extractDetails, hv]
  · intro h1
    simp [extractDetails, h1]
  · simp [extractDetails]

/-- Witness for the amended C7 theorem at concrete sub-maps. -/
theorem extractDetails_field_preference_witness :
    lookupStr [("iata", JValue.str "HEL")] "friendlyLocation" = none ∧
    lookupStr [("iata", JValue.str "HEL")] "iata" = some "HEL" ∧
    (extractDetails [("iata", JValue.str "HEL")] [("friendlyType", .str "A320")]
        [("friendlyLocation", .str "Paris")]).RealDestination = "HEL" ∧
    (extractDetails [("iata", JValue.str "HEL")] [("friendlyType", .str "A320")]
        [("friendlyLocation", .str "Paris")]).Origin = "Paris" :=
  ⟨rfl, rfl,
    (extractDetails_field_preference [("iata", JValue.str "HEL")]
        [("friendlyType", .str "A320")]
        [("friendlyLocation", .str "Paris")]).2.1 rfl "HEL" rfl,
    (extractDetails_field_preference [("iata", JValue.str "HEL")]
        [("friendlyType", .str "A320")]
        [("friendlyLocation", .str "Paris")]).2.2.2.2.2.2.1 "Paris" rfl⟩

/-! Helper lemmas about the option-set construction (used by C5). -/

/-- The distractor loop never grows the accumulator past 4 entries. -/
theorem pickDistractors_length (correct : String) :
    ∀ (dist opts : List String), opts.length ≤ 4 →
      (pickDistractors correct opts dist).length ≤ 4 := by
  intro dist
  induction dist with
  | nil => intro opts h; exact h
  | cons c rest ih =>
      intro opts h
      rw [pickDistractors]
      split_ifs with h4 hc
      · exact h
      · apply ih
        have : opts.length < 4 := lt_of_not_le h4
        simp only [List.length_append, List.length_singleton]
        omega
      · exact ih opts h

/-- The distractor loop appends only elements of the input list. -/
theorem pickDistractors_mem (correct : String) :
    ∀ (dist opts : List String) (x : String),
      x ∈ pickDistractors correct opts dist → x ∈ opts ∨ x ∈ dist := by
  intro dist
  induction dist with
  | nil => intro opts x hx; exact Or.inl hx
  | cons c rest ih =>
      intro opts x hx
      rw [pickDistractors] at hx
      split_ifs at hx with h4 hc
      · exact Or.inl hx
      · rcases ih (opts ++ [c]) x hx with h | h
        · rcases List.mem_append.1 h with h | h
          · exact Or.inl h
          · exact Or.inr (by simpa using Or.inl (List.mem_singleton.1 h))
        · exact Or.inr (List.mem_cons_of_mem c h)
      · rcases ih opts x hx with h | h
        · exact Or.inl h
        · exact Or.inr (List.mem_cons_of_mem c h)

/-- The distractor loop preserves duplicate-freedom when the input list is
duplicate-free and shares with the accumulator at most the correct option
(which it never appends). -/
theorem pickDistractors_nodup (correct : String) :
    ∀ (dist opts : List String), opts.Nodup → dist.Nodup →
      (∀ a, a ∈ dist → a ∈ opts → a = correct) →
      (pickDistractors correct opts dist).Nodup := by
  intro dist
  induction dist with
  | nil => intro opts h _ _; exact h
  | cons c rest ih =>
      intro opts hopts hdist hshare
      rw [pickDistractors]
      split_ifs with h4 hc
      · exact hopts
      · apply ih
        · refine List.Nodup.append hopts (List.nodup_singleton c) ?_
          intro a ha hb
          rw [List.mem_singleton] at hb
          subst hb
          exact hc.1 (hshare a (List.mem_cons_self a rest) ha)
        · exact (List.nodup_cons.1 hdist).2
        · intro a ha hmem
          rcases List.mem_append.1 hmem with h | h
          · exact hshare a (List.mem_cons_of_mem c ha) h
          · rw [List.mem_singleton] at h
            subst h
            exact absurd ha (List.nodup_cons.1 hdist).1
      · exact ih opts hopts (List.nodup_cons.1 hdist).2
          (fun a ha hmem => hshare a (List.mem_cons_of_mem c ha) hmem)

/-- The distractor loop never changes the number of occurrences of the
correct option (it skips entries equal to it). -/
theorem pickDistractors_count (correct : String) :
    ∀ (dist opts : List String),
      (pickDistractors correct opts dist).count correct =
        opts.count correct := by
  intro dist
  induction dist with
  | nil => intro opts; rfl
  | cons c rest ih =>
      intro opts
      rw [pickDistractors]
      split_ifs with h4 hc
      · rfl
      · rw [ih (opts ++ [c]), List.count_append]
        simp [List.count_singleton, hc.1]
      · exact ih opts

/-- The distractor loop never introduces "Unknown". -/
theorem pickDistractors_unknown (correct : String) :
    ∀ (dist opts : List String), "Unknown" ∉ opts →
      "Unknown" ∉ pickDistractors correct opts dist := by
  intro dist
  induction dist with
  | nil => intro opts h; exact h
  | cons c rest ih =>
      intro opts h
      rw [pickDistractors]
      split_ifs with h4 hc
      · exact h
      · apply ih
        intro hmem
        rcases List.mem_append.1 hmem with hm | hm
        · exact h hm
        · rw [List.mem_singleton] at hm
          exact hc.2 hm.symm
      · exact ih opts h

/-- The fallback loop never grows the option list past 4 entries. -/
theorem padFallback_length :
    ∀ (fb opts : List String), opts.length ≤ 4 →
      (padFallback opts fb).length ≤ 4 := by
  intro fb
  induction fb with
  | nil => intro opts h; exact h
  | cons c rest ih =>
      intro opts h
      rw [padFallback]
      split_ifs with h4 hc
      · exact h
      · exact ih opts h
      · apply ih
        have : opts.length < 4 := lt_of_not_le h4
        simp only [List.length_append, List.length_singleton]
        omega

/-- The fallback loop preserves duplicate-freedom (it explicitly skips
entries already present). -/
theorem padFallback_nodup :
    ∀ (fb opts : List String), opts.Nodup → (padFallback opts fb).Nodup := by
  intro fb
  induction fb with
  | nil => intro opts h; exact h
  | cons c rest ih =>
      intro opts h
      rw [padFallback]
      split_ifs with h4 hc
      · exact h
      · exact ih opts h
      · apply ih
        refine List.Nodup.append h (List.nodup_singleton c) ?_
        intro a ha hb
        rw [List.mem_singleton] at hb
        subst hb
        exact hc ha

/-- The fallback loop preserves membership of existing entries and the
occurrence count of any entry already present. -/
theorem padFallback_count :
    ∀ (fb opts : List String) (x : String), x ∈ opts →
      x ∈ padFallback opts fb ∧
        (padFallback opts fb).count x = opts.count x := by
  intro fb
  induction fb with
  | nil => intro opts x hx; exact ⟨hx, rfl⟩
  | cons c rest ih =>
      intro opts x hx
      rw [padFallback]
      split_ifs with h4 hc
      · exact ⟨hx, rfl⟩
      · exact ih opts x hx
      · have hx' : x ∈ opts ++ [c] := List.mem_append.2 (Or.inl hx)
        refine ⟨(ih (opts ++ [c]) x hx').1, ?_⟩
        rw [(ih (opts ++ [c]) x hx').2, List.count_append]
        have hxc : c ≠ x := fun h => hc (h ▸ hx)
        simp [List.count_singleton, hxc]

/-- The fallback loop introduces "Unknown" only if the fallback list holds
it. -/
theorem padFallback_unknown :
    ∀ (fb opts : List String), "Unknown" ∉ opts → "Unknown" ∉ fb →
      "Unknown" ∉ padFallback opts fb := by
  intro fb
  induction fb with
  | nil => intro opts h _; exact h
  | cons c rest ih =>
      intro opts h hfb
      rw [padFallback]
      split_ifs with h4 hc
      · exact h
      · exact ih opts h (fun hm => hfb (List.mem_cons_of_mem c hm))
      · apply ih
        · intro hmem
          rcases List.mem_append.1 hmem with hm | hm
          · exact h hm
          · rw [List.mem_singleton] at hm
            exact hfb (hm ▸ List.mem_cons_self c rest)
        · exact fun hm => hfb (List.mem_cons_of_mem c hm)

/-- Shared invariant bundle for `generateOptionsCore`. -/
theorem generateOptionsCore_invariants (correct : String)
    (dist fb : List String) (hdist : dist.Nodup)
    (hcor : correct ≠ "Unknown") (hfb : "Unknown" ∉ fb) :
    (generateOptionsCore correct dist fb).length ≤ 4 ∧
    (generateOptionsCore correct dist fb).Nodup ∧
    (generateOptionsCore correct dist fb).count correct = 1 ∧
    "Unknown" ∉ generateOptionsCore correct dist fb := by
  have hlen0 : ([correct] : List String).length ≤ 4 := by simp
  have hpicklen := pickDistractors_length correct dist [correct] hlen0
  have hpicknodup := pickDistractors_nodup correct dist [correct]
    (List.nodup_singleton correct) hdist
    (fun a _ ha => List.mem_singleton.1 ha)
  have hpickcount := pickDistractors_count correct dist [correct]
  have hpickunk := pickDistractors_unknown correct dist [correct]
    (fun h => hcor (List.mem_singleton.1 h).symm)
  have hcormem : correct ∈ pickDistractors correct [correct] dist := by
    have : (pickDistractors correct [correct] dist).count correct = 1 := by
      rw [hpickcount]; simp
    exact List.count_pos_iff.1 (by rw [this]; norm_num)
  rw [generateOptionsCore]
  split_ifs with hlt
  · refine ⟨padFallback_length fb _ hpicklen,
      padFallback_nodup fb _ hpicknodup, ?_, padFallback_unknown fb _ hpickunk hfb⟩
    rw [(padFallback_count fb _ correct hcormem).2, hpickcount]
    simp
  · refine ⟨hpicklen, hpicknodup, ?_, hpickunk⟩
    rw [hpickcount]
    simp

/-- C5 (counterexample): in the raylib variant an inbound round with
resolved origin "Unknown" passes round setup and makes "Unknown" the
correct option, so the generated option set contains "Unknown"; moreover
duplicate airport entries in the stored list are copied into the option
set, violating pairwise distinctness. -/
theorem generateOptions_unknown_counterexample :
    setupRoundWithData_raylib ⟨"Helsinki-Vantaa", "Helsinki-Vantaa", "A320",
        "Unknown"⟩ "FIN123" = .play "Where is FIN123 from?" "Unknown" ∧
    generateOptions_raylib "Unknown" [] =
      ["Unknown", "London", "Paris", "Berlin"] ∧
    "Unknown" ∈ generateOptions_raylib "Unknown" [] ∧
    generateOptions_raylib "Rome" ["Oslo", "Oslo", "Oslo", "Oslo"] =
      ["Rome", "Oslo", "Oslo", "Oslo"] ∧
    ¬ (["Rome", "Oslo", "Oslo", "Oslo"] : List String).Nodup := by
  refine ⟨rfl, rfl, ?_, rfl, by decide⟩
  rw [show generateOptions_raylib "Unknown" [] =
    ["Unknown", "London", "Paris", "Berlin"] from rfl]
  simp

/-- C5 (amended): for a correct option other than "Unknown" (the ebiten
round setup guarantees this; the raylib variant does not) and a
duplicate-free airports list (as maintained by `SaveAirport`), the option
set of either variant has at most 4 entries, is pairwise distinct,
contains the correct answer exactly once and never contains "Unknown";
when too few distractors are available it is padded from the fixed
fallback city list, skipping duplicates. -/
theorem generateOptions_invariants (correct : String) (dist : List String)
    (hdist : dist.Nodup) (hcor : correct ≠ "Unknown") :
    ((generateOptions_ebiten correct dist).length ≤ 4 ∧
      (generateOptions_ebiten correct dist).Nodup ∧
      (generateOptions_ebiten correct dist).count correct = 1 ∧
      "Unknown" ∉ generateOptions_ebiten correct dist) ∧
    ((generateOptions_raylib correct dist).length ≤ 4 ∧
      (generateOptions_raylib correct dist).Nodup ∧
      (generateOptions_raylib correct dist).count correct = 1 ∧
      "Unknown" ∉ generateOptions_raylib correct dist) :=
  ⟨generateOptionsCore_invariants correct dist fallbackCities_ebiten hdist
      hcor (by decide),
    generateOptionsCore_invariants correct dist fallbackCities_raylib hdist
      hcor (by decide)⟩

/-- Witness for the amended C5 theorem at a concrete round. -/
theorem generateOptions_invariants_witness :
    (["Oslo", "Madrid"] : List String).Nodup ∧ ("Paris" : String) ≠ "Unknown" ∧
    (generateOptions_ebiten "Paris" ["Oslo", "Madrid"]).Nodup ∧
    (generateOptions_raylib "Paris" ["Oslo", "Madrid"]).count "Paris" = 1 :=
  ⟨by decide, by decide,
    (generateOptions_invariants "Paris" ["Oslo", "Madrid"] (by decide)
        (by decide)).1.2.1,
    (generateOptions_invariants "Paris" ["Oslo", "Madrid"] (by decide)
        (by decide)).2.2.2.1⟩

/-- C2 (counterexample): the tile loader has no pending-set.  Two `GetTile`
lookups for the same missing key each spawn a fetch goroutine; both pass
the cache re-check before either stores, and BOTH issue a network GET: a
reachable state has two in-flight fetches, and two logged network calls,
for one key. -/
theorem tileLoader_duplicate_inflight_fetches :
    tlRun [.getTile ⟨10, 1, 2⟩, .getTile ⟨10, 1, 2⟩, .check 0, .check 1] =
      ⟨[], [⟨⟨10, 1, 2⟩, true⟩, ⟨⟨10, 1, 2⟩, true⟩],
        [⟨10, 1, 2⟩, ⟨10, 1, 2⟩]⟩ ∧
    tlInFlight (tlRun [.getTile ⟨10, 1, 2⟩, .getTile ⟨10, 1, 2⟩, .check 0,
        .check 1]) ⟨10, 1, 2⟩ = 2 ∧
    (tlRun [.getTile ⟨10, 1, 2⟩, .getTile ⟨10, 1, 2⟩, .check 0,
        .check 1]).netLog.count ⟨10, 1, 2⟩ = 2 := by
  exact ⟨rfl, rfl, rfl⟩

/-- One tile-loader step neither evicts a stored key nor issues a network
GET for it: the store is permanent and the re-check in `fetchTile` stops
any thread once the key is cached. -/
theorem tlStep_preserves_stored (s : TLState) (e : TLEvent) (k : TileKey)
    (h : k ∈ s.cache) :
    k ∈ (tlStep s e).cache ∧
      (tlStep s e).netLog.count k = s.netLog.count k := by
  cases e with
  | getTile k2 =>
      rw [tlStep]
      split_ifs <;> exact ⟨h, rfl⟩
  | check i =>
      rw [tlStep]
      split
      case _ k2 hm =>
        split_ifs with hk2
        · exact ⟨h, rfl⟩
        · refine ⟨h, ?_⟩
          have hne : k2 ≠ k := fun hkk => hk2 (hkk ▸ h)
          simp [List.count_append, List.count_singleton, hne]
      case _ => exact ⟨h, rfl⟩
  | store i =>
      rw [tlStep]
      split
      case _ k2 hm => exact ⟨List.mem_append.2 (Or.inl h), rfl⟩
      case _ => exact ⟨h, rfl⟩
  | fail i =>
      rw [tlStep]
      split
      case _ => exact ⟨h, rfl⟩
      case _ => exact ⟨h, rfl⟩

/-- C2 (amended): a second lookup while a fetch is pending CAN launch a
second network fetch (there is no pending-set; only the stored result
stops refetching, as the counterexample shows).  What does hold: once a
tile is stored for a key, it stays stored and no later event — lookup or
in-flight thread — ever issues another network GET for that key. -/
theorem tileLoader_stored_key_never_refetched (evs : List TLEvent)
    (s : TLState) (k : TileKey) (h : k ∈ s.cache) :
    k ∈ (evs.foldl tlStep s).cache ∧
      (evs.foldl tlStep s).netLog.count k = s.netLog.count k := by
  induction evs generalizing s with
  | nil => exact ⟨h, rfl⟩
  | cons e rest ih =>
      rw [List.foldl_cons]
      have h1 := tlStep_preserves_stored s e k h
      exact ⟨(ih (tlStep s e) h1.1).1, (ih (tlStep s e) h1.1).2.trans h1.2⟩

/-- Witness for the amended C2 theorem: from a state holding the key, a
lookup plus a thread check leave the key cached and the network log
empty. -/
theorem tileLoader_stored_key_never_refetched_witness :
    (⟨1, 2, 3⟩ : TileKey) ∈ (⟨[⟨1, 2, 3⟩], [], []⟩ : TLState).cache ∧
    (⟨1, 2, 3⟩ : TileKey) ∈
      (([.getTile ⟨1, 2, 3⟩, .check 0] : List TLEvent).foldl tlStep
        ⟨[⟨1, 2, 3⟩], [], []⟩).cache ∧
    (([.getTile ⟨1, 2, 3⟩, .check 0] : List TLEvent).foldl tlStep
        ⟨[⟨1, 2, 3⟩], [], []⟩).netLog.count ⟨1, 2, 3⟩ =
      (⟨[⟨1, 2, 3⟩], [], []⟩ : TLState).netLog.count ⟨1, 2, 3⟩ :=
  ⟨by decide,
    (tileLoader_stored_key_never_refetched [.getTile ⟨1, 2, 3⟩, .check 0]
        ⟨[⟨1, 2, 3⟩], [], []⟩ ⟨1, 2, 3⟩ (by decide)).1,
    (tileLoader_stored_key_never_refetched [.getTile ⟨1, 2, 3⟩, .check 0]
        ⟨[⟨1, 2, 3⟩], [], []⟩ ⟨1, 2, 3⟩ (by decide)).2⟩

/-- C9 (confirmed): for every latitude strictly between −90° and +90° and
every longitude and zoom level, `PixelsToLatLon` applied to
`LatLonToPixels` at the same zoom recovers the original latitude and
longitude exactly (over the reals). -/
theorem latLonToPixels_roundtrip (lat lon : ℝ) (zoom : ℕ)
    (h1 : -90 < lat) (h2 : lat < 90) :
    PixelsToLatLon (LatLonToPixels lat lon zoom).1
      (LatLonToPixels lat lon zoom).2 zoom = (lat, lon) := by
  have hπ : (0 : ℝ) < Real.pi := Real.pi_pos
  have hS : (0 : ℝ) < 2 ^ zoom * tileSize := by
    have : (0:ℝ) < 2 ^ zoom := by positivity
    simp only [tileSize]
    nlinarith
  set r : ℝ := lat * Real.pi / 180 with hr
  have hr1 : -(Real.pi / 2) < r := by
    rw [hr]; nlinarith
  have hr2 : r < Real.pi / 2 := by
    rw [hr]; nlinarith
  have hcos : 0 < Real.cos r := Real.cos_pos_of_mem_Ioo ⟨hr1, hr2⟩
  have hsin : -1 < Real.sin r := by
    have hmem1 : -(Real.pi / 2) ∈ Set.Icc (-(Real.pi / 2)) (Real.pi / 2) := by
      constructor <;> nlinarith
    have hmem2 : r ∈ Set.Icc (-(Real.pi / 2)) (Real.pi / 2) := by
      constructor <;> nlinarith
    have := Real.strictMonoOn_sin hmem1 hmem2 hr1
    rwa [Real.sin_neg, Real.sin_pi_div_two] at this
  have hsin1 : 0 < 1 + Real.sin r := by linarith
  set t : ℝ := Real.tan r + 1 / Real.cos r with ht
  have htval : t = (Real.sin r + 1) / Real.cos r := by
    rw [ht, Real.tan_eq_sin_div_cos]
    field_simp
  have htpos : 0 < t := by
    rw [htval]
    apply div_pos (by linarith) hcos
  -- the stored y coordinate gives back n = log t
  simp only [LatLonToPixels, PixelsToLatLon]
  have hn : Real.pi - 2 * Real.pi *
      ((1 - Real.log t / Real.pi) / 2 * (2 ^ zoom) * tileSize) /
        ((2 ^ zoom : ℝ) * tileSize) = Real.log t := by
    field_simp
    ring
  rw [Prod.mk.injEq]
  constructor
  · -- latitude component
    rw [hn]
    rw [Real.exp_log htpos, Real.exp_neg, Real.exp_log htpos]
    have hsinh : (t - t⁻¹) / 2 = Real.tan r := by
      rw [htval, Real.tan_eq_sin_div_cos, inv_div]
      rw [div_sub_div _ _ (ne_of_gt hcos) (by linarith : Real.sin r + 1 ≠ 0)]
      have key : (Real.sin r + 1) * (Real.sin r + 1) - Real.cos r * Real.cos r
          = 2 * Real.sin r * (Real.sin r + 1) := by
        nlinarith [Real.sin_sq_add_cos_sq r]
      rw [key, div_div, div_eq_div_iff
        (mul_ne_zero (mul_ne_zero (ne_of_gt hcos) (by linarith)) two_ne_zero)
        (ne_of_gt hcos)]
      ring
    rw [hsinh, Real.arctan_tan hr1 hr2, hr]
    field_simp
    ring
  · -- longitude component
    field_simp
    ring

/-- Witness for the C9 theorem at the origin and zoom 0. -/
theorem latLonToPixels_roundtrip_witness :
    (-90 : ℝ) < 0 ∧ (0 : ℝ) < 90 ∧
    PixelsToLatLon (LatLonToPixels 0 0 0).1 (LatLonToPixels 0 0 0).2 0 =
      ((0 : ℝ), (0 : ℝ)) :=
  ⟨by norm_num, by norm_num,
    latLonToPixels_roundtrip 0 0 0 (by norm_num) (by norm_num)⟩

end FlightMonitor
